import Mathlib

/-!
Verification of the geo-cam client module (`script.js` and its dual-layout
variant). The JavaScript is shallowly embedded: numbers are modelled as exact
rationals, DOM text sinks as a record of strings, the canvas as a list of draw
commands, and the camera/stream globals as an explicit state record with the
asynchronous `getUserMedia` outcome supplied as a parameter.
-/

namespace GeoCam

/-- The four DOM text sinks (`coordinates`, `altitude`, `accuracy`,
`datetime` elements) plus the `loading` CSS class on the coordinates
element. -/
structure GeoDisplay where
  coordinates : String
  altitude : String
  accuracy : String
  datetime : String
  coordLoading : Bool
deriving Repr, DecidableEq

/-- One geolocation fix (`position.coords`): latitude/longitude in decimal
degrees, altitude and accuracy optional (`null` in JS). -/
structure PositionFix where
  latitude : ℚ
  longitude : ℚ
  altitude : Option ℚ
  accuracy : Option ℚ
deriving Repr, DecidableEq

/-- `Number.prototype.toFixed` on a nonnegative rational: the integer n
closest to x·10^d (ties to the larger n), rendered with exactly d digits
after the point. -/
def toFixedNonneg (x : ℚ) (d : ℕ) : String :=
  let n : ℕ := (⌊x * (10 : ℚ) ^ d + 1 / 2⌋).toNat
  if d = 0 then Nat.repr n
  else
    let frac := Nat.repr (n % 10 ^ d)
    Nat.repr (n / 10 ^ d) ++ "." ++
      String.mk (List.replicate (d - frac.length) '0') ++ frac

/-- `Number.prototype.toFixed`: a leading sign for negative inputs, then the
nonnegative rendering of the absolute value. -/
def toFixed (x : ℚ) (d : ℕ) : String :=
  if x < 0 then "-" ++ toFixedNonneg (-x) d else toFixedNonneg x d

/-- `updatePosition` from the dual-layout script (src/unnamed/part_000,
lines 85-103): formats latitude/longitude with `toFixed(6)` joined by a
comma and space, altitude as `toFixed(1) + " m"` or `"N/A"` when null, and
accuracy with the (double-encoded) prefix found literally in that file. -/
def updatePosition (pos : PositionFix) (d : GeoDisplay) : GeoDisplay :=
  { d with
    coordinates := toFixed pos.latitude 6 ++ ", " ++ toFixed pos.longitude 6
    coordLoading := false
    altitude :=
      match pos.altitude with
      | some a => toFixed a 1 ++ " m"
      | none => "N/A"
    accuracy :=
      match pos.accuracy with
      | some a => "Â±" ++ toFixed a 1 ++ " m"
      | none => "N/A" }

/-- `updatePosition` from src/script.js (lines 85-103), identical except the
accuracy prefix is the single character `±`. -/
def updatePositionScriptJs (pos : PositionFix) (d : GeoDisplay) : GeoDisplay :=
  { d with
    coordinates := toFixed pos.latitude 6 ++ ", " ++ toFixed pos.longitude 6
    coordLoading := false
    altitude :=
      match pos.altitude with
      | some a => toFixed a 1 ++ " m"
      | none => "N/A"
    accuracy :=
      match pos.accuracy with
      | some a => "±" ++ toFixed a 1 ++ " m"
      | none => "N/A" }

/-- An empty display, as before any producer has written to the sinks. -/
def blankDisplay : GeoDisplay :=
  { coordinates := "", altitude := "", accuracy := "", datetime := ""
    coordLoading := true }

example : toFixed (37422999 / 1000000) 6 = "37.422999" := by
  with_unfolding_all decide
example : toFixed (-(122084057 / 1000000)) 6 = "-122.084057" := by
  with_unfolding_all decide
example : toFixed (123456 / 1000) 1 = "123.5" := by with_unfolding_all decide
example : toFixed (52 / 10) 1 = "5.2" := by with_unfolding_all decide

/-- A 2D-context fill style: either a CSS color string or the linear gradient
built by `createLinearGradient` plus its `addColorStop` calls. -/
inductive FillStyle where
  | color (css : String)
  | linearGradient (x0 y0 x1 y1 : ℚ) (stops : List (ℚ × String))
deriving Repr, DecidableEq

/-- A canvas font: numeric weight and pixel size (the family string of the
source is fixed and carries no layout information). -/
structure CanvasFont where
  weight : ℕ
  sizePx : ℚ
deriving Repr, DecidableEq

/-- One effect on the 2D context, with the context state (fill style, font,
text alignment, line width) that is current when the primitive runs recorded
on the command itself. `strokeLine` stands for a
`beginPath`/`moveTo`/`lineTo`/`stroke` sequence. -/
inductive DrawCmd where
  | drawImage (x y w h : ℚ)
  | fillRect (style : FillStyle) (x y w h : ℚ)
  | strokeRect (css : String) (lineWidth : ℚ) (x y w h : ℚ)
  | strokeLine (css : String) (lineWidth : ℚ) (x1 y1 x2 y2 : ℚ)
  | fillText (text : String) (x y : ℚ) (font : CanvasFont) (css : String)
      (align : String)
deriving Repr, DecidableEq

/-- The landscape branch of `capturePhoto` (src/unnamed/part_000, lines
157-239).  `row` is `drawInfoRow`; the code threads `currentY` through the
row calls, adding `itemSpacing` after each, which is written out here as
`rowY0`, `y1`, `y2`, `y3`. -/
def landscapeOverlay (w h : ℕ) (d : GeoDisplay) : List DrawCmd :=
  let baseFontSize : ℕ := w / 30
  let overlayWidth : ℕ := w * 3 / 10
  let padding : ℚ := (baseFontSize : ℚ) * (12 / 10)
  let itemSpacing : ℚ := (baseFontSize : ℚ) * (25 / 10)
  let headerFontSize : ℚ := (baseFontSize : ℚ) * (14 / 10)
  let labelFontSize : ℚ := (baseFontSize : ℚ) * (9 / 10)
  let valueFontSize : ℚ := (baseFontSize : ℚ) * (9 / 10)
  let overlayHeight : ℚ := padding * 2 + headerFontSize + itemSpacing * 4
  let overlayX : ℚ := (w : ℚ) - (overlayWidth : ℚ) - padding
  let overlayY : ℚ := (h : ℚ) - overlayHeight - padding
  let currentY0 : ℚ := overlayY + padding * (12 / 10)
  let rowY0 : ℚ := currentY0 + headerFontSize + padding * (13 / 10)
  let rowPadding : ℚ := padding * (8 / 10)
  let labelX : ℚ := overlayX + rowPadding
  let valueX : ℚ := overlayX + (overlayWidth : ℚ) - rowPadding
  let row := fun (label value : String) (yPos : ℚ) =>
    [DrawCmd.strokeLine "rgba(255, 255, 255, 0.1)" 1
        (overlayX + rowPadding) yPos (overlayX + (overlayWidth : ℚ) - rowPadding) yPos,
      DrawCmd.fillText label labelX (yPos + labelFontSize * (14 / 10))
        ⟨500, labelFontSize⟩ "rgba(255, 255, 255, 0.8)" "left",
      DrawCmd.fillText value valueX (yPos + valueFontSize * (14 / 10))
        ⟨600, valueFontSize⟩ "white" "right"]
  let y1 : ℚ := rowY0 + itemSpacing
  let y2 : ℚ := y1 + itemSpacing
  let y3 : ℚ := y2 + itemSpacing
  [DrawCmd.fillRect (.color "rgba(255, 255, 255, 0.15)")
      overlayX overlayY (overlayWidth : ℚ) overlayHeight,
    DrawCmd.strokeRect "rgba(255, 255, 255, 0.2)" 1
      overlayX overlayY (overlayWidth : ℚ) overlayHeight,
    DrawCmd.fillRect
      (.linearGradient ((w : ℚ) - (overlayWidth : ℚ) - padding * 2) overlayY (w : ℚ) overlayY
        [(0, "rgba(0, 0, 0, 0)"), (3 / 10, "rgba(0, 0, 0, 0.3)"), (1, "rgba(0, 0, 0, 0.6)")])
      ((w : ℚ) - (overlayWidth : ℚ) - padding * 3) (overlayY - padding)
      ((overlayWidth : ℚ) + padding * 3) (overlayHeight + padding * 2),
    DrawCmd.fillRect (.color "rgba(255, 255, 255, 0.15)")
      overlayX overlayY (overlayWidth : ℚ) overlayHeight,
    DrawCmd.strokeRect "rgba(255, 255, 255, 0.2)" 1
      overlayX overlayY (overlayWidth : ℚ) overlayHeight,
    DrawCmd.fillText "GPS Cam by solvepao research"
      (overlayX + (overlayWidth : ℚ) / 2) (currentY0 + headerFontSize * (8 / 10))
      ⟨600, headerFontSize⟩ "white" "center"]
  ++ row "Coordinates" d.coordinates rowY0
  ++ row "Altitude" d.altitude y1
  ++ row "Accuracy" d.accuracy y2
  ++ row "Date & Time" d.datetime y3

/-- The portrait branch of `capturePhoto` (src/unnamed/part_000, lines
241-267): full-width band of height `fontSize * 8`, a bold header, then four
`label: value` lines advancing `y` by `fontSize * 1.2` per line (after
`fontSize * 1.8` following the header). -/
def portraitOverlay (w : ℕ) (d : GeoDisplay) : List DrawCmd :=
  let fontSize : ℕ := w / 25
  let fs : ℚ := (fontSize : ℚ)
  let padding : ℚ := fs * (8 / 10)
  let y0 : ℚ := fs * (15 / 10)
  let y1 : ℚ := y0 + fs * (18 / 10)
  let y2 : ℚ := y1 + fs * (12 / 10)
  let y3 : ℚ := y2 + fs * (12 / 10)
  let y4 : ℚ := y3 + fs * (12 / 10)
  [DrawCmd.fillRect (.color "rgba(0, 0, 0, 0.7)") 0 0 (w : ℚ) (fs * 8),
    DrawCmd.fillText "GPS Cam by solvepao research" padding y0
      ⟨700, fs * (12 / 10)⟩ "white" "left",
    DrawCmd.fillText ("Coordinates: " ++ d.coordinates) padding y1
      ⟨500, fs * (8 / 10)⟩ "white" "left",
    DrawCmd.fillText ("Altitude: " ++ d.altitude) padding y2
      ⟨500, fs * (8 / 10)⟩ "white" "left",
    DrawCmd.fillText ("Accuracy: " ++ d.accuracy) padding y3
      ⟨500, fs * (8 / 10)⟩ "white" "left",
    DrawCmd.fillText ("Date & Time: " ++ d.datetime) padding y4
      ⟨500, fs * (8 / 10)⟩ "white" "left"]

/-- Everything `capturePhoto` does to the outside world: the raster size it
sets, which branch the `isLandscape` comparison chose, the draw commands, and
the `toBlob`/anchor-click export request. -/
structure CaptureResult where
  width : ℕ
  height : ℕ
  isLandscape : Bool
  draws : List DrawCmd
  exportMime : String
  exportQuality : ℚ
  filename : String
deriving Repr, DecidableEq

/-- `capturePhoto` (src/unnamed/part_000, lines 141-278). The raster is
resized to the video frame's dimensions, the frame is blitted at the origin,
`isLandscape = canvas.width > canvas.height` picks one of the two overlay
branches, and the result is exported as JPEG at quality 0.95 under
`solvepao_` + `Date.now()` + `.jpg`. `now` is the `Date.now()` sample. -/
def capturePhoto (videoWidth videoHeight : ℕ) (d : GeoDisplay) (now : ℕ) :
    CaptureResult :=
  { width := videoWidth
    height := videoHeight
    isLandscape := decide (videoWidth > videoHeight)
    draws := DrawCmd.drawImage 0 0 (videoWidth : ℚ) (videoHeight : ℚ) ::
      (if videoWidth > videoHeight then landscapeOverlay videoWidth videoHeight d
       else portraitOverlay videoWidth d)
    exportMime := "image/jpeg"
    exportQuality := 95 / 100
    filename := "solvepao_" ++ Nat.repr now ++ ".jpg" }

/-- The y coordinates of the row separator lines, in drawing order: one per
`drawInfoRow` call. -/
def sepYs (cmds : List DrawCmd) : List ℚ :=
  cmds.filterMap fun c =>
    match c with
    | .strokeLine _ _ _ y1 _ _ => some y1
    | _ => none

/-- The width of the first `fillRect` in a command list (for the landscape
overlay this is the panel rectangle). -/
def firstFillRectWidth (cmds : List DrawCmd) : Option ℚ :=
  cmds.findSome? fun c =>
    match c with
    | .fillRect _ _ _ rw _ => some rw
    | _ => none

set_option maxRecDepth 4000

/-- The worked example fix of the spec: latitude 37.422999, longitude
-122.084057, altitude 123.456 m, accuracy 5.2 m. -/
def exampleFix : PositionFix :=
  { latitude := 37422999 / 1000000, longitude := -(122084057 / 1000000)
    altitude := some (123456 / 1000), accuracy := some (52 / 10) }

/-- The same fix with both optional fields null. -/
def exampleFixBare : PositionFix :=
  { latitude := 37422999 / 1000000, longitude := -(122084057 / 1000000)
    altitude := none, accuracy := none }

/-- A display state as it would look after one full fix and a clock tick. -/
def sampleDisplay : GeoDisplay :=
  { coordinates := "37.422999, -122.084057", altitude := "123.5 m"
    accuracy := "Â±5.2 m", datetime := "Oct 11, 2025 12:00:00"
    coordLoading := false }

example : sepYs (landscapeOverlay 1920 1080 sampleDisplay) =
    [2008 / 5, 2808 / 5, 3608 / 5, 4408 / 5] := by
  norm_num [landscapeOverlay, sepYs, List.filterMap_cons]

example : firstFillRectWidth (landscapeOverlay 1920 1080 sampleDisplay) =
    some 576 := by
  norm_num [landscapeOverlay, firstFillRectWidth, List.findSome?_cons]

/-- Result of one `navigator.mediaDevices.getUserMedia` call: either a new
stream or a thrown error (permission denied, not found, not readable,
overconstrained — the module treats them uniformly). -/
inductive CamOutcome where
  | success
  | failure (err : String)
deriving Repr, DecidableEq

/-- The constraints object passed to `getUserMedia`. -/
structure Constraints where
  facing : String
  idealWidth : ℕ
  idealHeight : ℕ
deriving Repr, DecidableEq

/-- The module-level mutable state of the script plus a log of the stream
objects handed out and of the tracks stopped, so that resource claims can be
stated. Stream objects are numbered in creation order; `streamVar` is the
`stream` global, `stopped` the ids whose tracks have been stopped,
`lastRequest` the constraints of the most recent `getUserMedia` call. -/
structure AppState where
  facingMode : String
  streamVar : Option ℕ
  created : List ℕ
  stopped : List ℕ
  nextId : ℕ
  lastRequest : Option Constraints
  permissionVisible : Bool
  videoSrc : Option ℕ
  watchId : Option ℕ
  display : GeoDisplay
deriving Repr, DecidableEq

/-- State at script load: `stream = null`, `facingMode = 'environment'`,
`watchId = null`, no prompt shown, display sinks untouched. -/
def initialState : AppState :=
  { facingMode := "environment", streamVar := none, created := [], stopped := []
    nextId := 0, lastRequest := none, permissionVisible := false
    videoSrc := none, watchId := none, display := blankDisplay }

/-- `startCamera` (src/unnamed/part_000, lines 32-56): stop every track of
the existing stream if there is one, request a new stream for the current
facing mode at ideal 1920×1080, and on success install it and hide the
permission prompt; on failure show the prompt and rethrow the error. -/
def startCamera (s : AppState) (o : CamOutcome) : AppState × Except String Unit :=
  let s1 :=
    match s.streamVar with
    | some sid => { s with stopped := sid :: s.stopped }
    | none => s
  let s2 := { s1 with lastRequest := some ⟨s1.facingMode, 1920, 1080⟩ }
  match o with
  | .success =>
      ({ s2 with
          streamVar := some s2.nextId
          created := s2.created ++ [s2.nextId]
          nextId := s2.nextId + 1
          videoSrc := some s2.nextId
          permissionVisible := false }, Except.ok ())
  | .failure e => ({ s2 with permissionVisible := true }, Except.error e)

/-- The facing-mode flip written inline in `toggleCamera`. -/
def flipFacing (m : String) : String :=
  if m = "environment" then "user" else "environment"

/-- `toggleCamera` (lines 59-62): flip `facingMode`, then `await
startCamera()`; nothing is rolled back if the restart fails. -/
def toggleCamera (s : AppState) (o : CamOutcome) : AppState × Except String Unit :=
  startCamera { s with facingMode := flipFacing s.facingMode } o

/-- `startLocationTracking` (lines 65-82): if geolocation is unsupported set
the coordinates text and subscribe to nothing, otherwise store the
`watchPosition` handle in `watchId`. -/
def startLocationTracking (s : AppState) (geoSupported : Bool) (handle : ℕ) :
    AppState :=
  if geoSupported then { s with watchId := some handle }
  else { s with display := { s.display with coordinates := "Geolocation not supported" } }

/-- `handleLocationError` (lines 106-110): set the coordinates text to the
unavailable literal and drop the loading class; nothing else — in particular
the watch subscription is untouched. -/
def handleLocationError (s : AppState) (_err : String) : AppState :=
  { s with display :=
      { s.display with coordinates := "Location unavailable", coordLoading := false } }

/-- `init` (lines 20-29): `await startCamera()` then start location tracking
and the clock; any error escaping that sequence shows the permission
prompt. -/
def init (s : AppState) (o : CamOutcome) (geoSupported : Bool) (handle : ℕ) :
    AppState :=
  match startCamera s o with
  | (s', Except.ok _) => startLocationTracking s' geoSupported handle
  | (s', Except.error _) => { s' with permissionVisible := true }

/-- A user action that drives the camera lifecycle: the capture-start of
`init`/retry, or a facing toggle, each with its `getUserMedia` outcome. -/
inductive CamEvent where
  | start (o : CamOutcome)
  | toggle (o : CamOutcome)
deriving Repr, DecidableEq

/-- One camera lifecycle step. -/
def stepCam (s : AppState) (e : CamEvent) : AppState :=
  match e with
  | .start o => (startCamera s o).1
  | .toggle o => (toggleCamera s o).1

/-- Run a sequence of camera lifecycle events. -/
def runCam (s : AppState) : List CamEvent → AppState
  | [] => s
  | e :: es => runCam (stepCam s e) es

/-- Streams created whose tracks were never stopped: the sessions still
holding the capture device. -/
def activeStreams (s : AppState) : List ℕ :=
  s.created.filter fun sid => ! s.stopped.contains sid

/-- Camera-lifecycle invariant: stream ids are distinct and below the
creation counter, and every stream whose tracks were not stopped is the one
currently installed in the `stream` global. -/
def CamInv (s : AppState) : Prop :=
  s.created.Nodup ∧
  (∀ j ∈ s.created, j < s.nextId) ∧
  (∀ j ∈ s.created, ¬ s.stopped.contains j → s.streamVar = some j)

lemma camInv_initial : CamInv initialState := by
  refine ⟨List.nodup_nil, ?_, ?_⟩ <;> intro j hj <;> simp [initialState] at hj

lemma camInv_startCamera (s : AppState) (o : CamOutcome) (h : CamInv s) :
    CamInv (startCamera s o).1 := by
  obtain ⟨hnd, hlt, hcur⟩ := h
  have hfresh : s.nextId ∉ s.created := fun hmem =>
    absurd (hlt _ hmem) (Nat.lt_irrefl _)
  cases hs : s.streamVar with
  | none =>
      cases o with
      | success =>
          refine ⟨?_, ?_, ?_⟩
          · simpa [startCamera, hs, List.nodup_append, List.disjoint_singleton] using ⟨hnd, hfresh⟩
          · intro j hj
            simp only [startCamera, hs, List.mem_append, List.mem_singleton] at hj ⊢
            rcases hj with hj | hj
            · exact Nat.lt_succ_of_lt (hlt j hj)
            · omega
          · intro j hj hstop
            simp only [startCamera, hs, List.mem_append, List.mem_singleton] at hj hstop ⊢
            rcases hj with hj | hj
            · exact absurd (hcur j hj hstop) (by simp [hs])
            · simp [hj]
      | failure e =>
          refine ⟨?_, ?_, ?_⟩
          · simpa [startCamera, hs] using hnd
          · intro j hj
            simp only [startCamera, hs] at hj ⊢
            exact hlt j hj
          · intro j hj hstop
            simp only [startCamera, hs] at hj hstop ⊢
            exact absurd (hcur j hj hstop) (by simp [hs])
  | some i =>
      cases o with
      | success =>
          refine ⟨?_, ?_, ?_⟩
          · simpa [startCamera, hs, List.nodup_append, List.disjoint_singleton] using ⟨hnd, hfresh⟩
          · intro j hj
            simp only [startCamera, hs, List.mem_append, List.mem_singleton] at hj ⊢
            rcases hj with hj | hj
            · exact Nat.lt_succ_of_lt (hlt j hj)
            · omega
          · intro j hj hstop
            simp only [startCamera, hs, List.mem_append, List.mem_singleton] at hj ⊢
            simp only [startCamera, hs, List.contains_cons, Bool.or_eq_true,
              beq_iff_eq, not_or] at hstop
            obtain ⟨hne, hnc⟩ := hstop
            rcases hj with hj | hj
            · have hv := hcur j hj hnc
              rw [hs] at hv
              exact absurd (Option.some.inj hv).symm hne
            · simp [hj]
      | failure e =>
          refine ⟨?_, ?_, ?_⟩
          · simpa [startCamera, hs] using hnd
          · intro j hj
            simp only [startCamera, hs] at hj ⊢
            exact hlt j hj
          · intro j hj hstop
            simp only [startCamera, hs] at hj ⊢
            simp only [startCamera, hs, List.contains_cons, Bool.or_eq_true,
              beq_iff_eq, not_or] at hstop
            obtain ⟨hne, hnc⟩ := hstop
            have hv := hcur j hj hnc
            rw [hs] at hv
            exact absurd (Option.some.inj hv).symm hne

lemma camInv_step (s : AppState) (e : CamEvent) (h : CamInv s) :
    CamInv (stepCam s e) := by
  cases e with
  | start o => exact camInv_startCamera s o h
  | toggle o => exact camInv_startCamera _ o (by exact h)

lemma camInv_runCam (evs : List CamEvent) :
    ∀ s : AppState, CamInv s → CamInv (runCam s evs) := by
  induction evs with
  | nil => intro s h; exact h
  | cons e es ih => intro s h; exact ih _ (camInv_step s e h)

lemma length_le_one_of_nodup_of_all_eq {l : List ℕ} {a : ℕ}
    (hnd : l.Nodup) (h : ∀ x ∈ l, x = a) : l.length ≤ 1 := by
  match l with
  | [] => simp
  | [_] => simp
  | x :: y :: t =>
      have hx := h x (by simp)
      have hy := h y (by simp)
      have : x ≠ y := by
        intro hxy
        exact (List.nodup_cons.1 hnd).1 (hxy ▸ List.mem_cons_self y t)
      exact absurd (hx.trans hy.symm) this

lemma activeStreams_length_le_one (s : AppState) (h : CamInv s) :
    (activeStreams s).length ≤ 1 := by
  obtain ⟨hnd, _, hcur⟩ := h
  cases hv : s.streamVar with
  | none =>
      have : activeStreams s = [] := by
        rw [List.eq_nil_iff_forall_not_mem]
        intro j hj
        simp only [activeStreams, List.mem_filter, Bool.not_eq_true',
          ← Bool.not_eq_true] at hj
        exact absurd (hcur j hj.1 hj.2) (by simp [hv])
      simp [this]
  | some i =>
      refine length_le_one_of_nodup_of_all_eq (a := i) (hnd.filter _) ?_
      intro j hj
      simp only [activeStreams, List.mem_filter, Bool.not_eq_true',
        ← Bool.not_eq_true] at hj
      have hsv := hcur j hj.1 hj.2
      rw [hv] at hsv
      exact (Option.some.inj hsv).symm

lemma toggleCamera_facingMode (s : AppState) (o : CamOutcome) :
    ((toggleCamera s o).1).facingMode = flipFacing s.facingMode := by
  cases hs : s.streamVar <;> cases o <;> simp [toggleCamera, startCamera, hs]

/-- Claim C1: `capturePhoto` classifies the frame as landscape exactly when
the raster width is strictly greater than the raster height; otherwise —
including the 1000×1000 tie — the portrait layout path runs, and this single
comparison alone selects which of the two disjoint layout command lists is
emitted after the frame blit. -/
theorem capture_orientation_classification :
    ∀ (w h : ℕ) (d : GeoDisplay) (t : ℕ),
      ((capturePhoto w h d t).isLandscape = true ↔ h < w) ∧
      (capturePhoto w h d t).draws =
        DrawCmd.drawImage 0 0 (w : ℚ) (h : ℚ) ::
          (if h < w then landscapeOverlay w h d else portraitOverlay w d) ∧
      (capturePhoto 1920 1080 d t).isLandscape = true ∧
      (capturePhoto 1080 1920 d t).isLandscape = false ∧
      (capturePhoto 1000 1000 d t).isLandscape = false := by
  intro w h d t
  exact ⟨by simp [capturePhoto], rfl, rfl, rfl, rfl⟩

/-- Claim C2 (amended): in the landscape layout the four information rows
are stacked with fixed per-row vertical spacing of 2.5× the base font size,
where the landscape base font size is floor(width / 30) — not the portrait
branch's floor(width / 25). -/
theorem landscape_row_spacing :
    ∀ (w h : ℕ) (d : GeoDisplay),
      (sepYs (landscapeOverlay w h d)).length = 4 ∧
      List.Chain' (fun a b => b = a + ((w / 30 : ℕ) : ℚ) * (25 / 10))
        (sepYs (landscapeOverlay w h d)) := by
  intro w h d
  refine ⟨rfl, ?_⟩
  norm_num [landscapeOverlay, sepYs, List.filterMap_cons, List.chain'_cons]

/-- Claim C2 counterexample: at raster 1920×1080 the landscape rows are
160 px apart — which is 2.5× floor(1920 / 30) — and not
2.5× floor(1920 / 25) = 190 as the claim states. -/
theorem landscape_row_spacing_cex :
    (sepYs (landscapeOverlay 1920 1080 sampleDisplay)).getD 1 0 -
        (sepYs (landscapeOverlay 1920 1080 sampleDisplay)).getD 0 0 ≠
      ((1920 / 25 : ℕ) : ℚ) * (25 / 10) ∧
    (sepYs (landscapeOverlay 1920 1080 sampleDisplay)).getD 1 0 -
        (sepYs (landscapeOverlay 1920 1080 sampleDisplay)).getD 0 0 =
      ((1920 / 30 : ℕ) : ℚ) * (25 / 10) := by
  constructor <;>
    norm_num [landscapeOverlay, sepYs, List.filterMap_cons, List.getD]

/-- Claim C3 (refuted by the code): `capturePhoto` has no guard on the frame
dimensions — with a 0×0 video frame it still blits the (empty) frame, still
renders the full portrait overlay band and text, and still requests the JPEG
export with a timestamped filename. -/
theorem capture_no_zero_guard :
    (capturePhoto 0 0 sampleDisplay 1730000000000).draws =
      DrawCmd.drawImage 0 0 0 0 :: portraitOverlay 0 sampleDisplay ∧
    (portraitOverlay 0 sampleDisplay).length = 6 ∧
    (capturePhoto 0 0 sampleDisplay 1730000000000).filename =
      "solvepao_1730000000000.jpg" ∧
    (capturePhoto 0 0 sampleDisplay 1730000000000).exportMime = "image/jpeg" ∧
    (capturePhoto 0 0 sampleDisplay 1730000000000).exportQuality = 95 / 100 := by
  refine ⟨by norm_num [capturePhoto], rfl, ?_, rfl, rfl⟩
  with_unfolding_all decide

/-- Claim C4: over every sequence of `startCamera`/`toggleCamera` calls at
most one stream is ever live, and whenever the `stream` global holds a
previous stream, `startCamera` stops its tracks before installing (or even
requesting) a new one. -/
theorem camera_single_session :
    (∀ evs : List CamEvent,
      (activeStreams (runCam initialState evs)).length ≤ 1) ∧
    (∀ (s : AppState) (o : CamOutcome) (sid : ℕ),
      s.streamVar = some sid → sid ∈ ((startCamera s o).1).stopped) := by
  constructor
  · intro evs
    exact activeStreams_length_le_one _ (camInv_runCam evs initialState camInv_initial)
  · intro s o sid hs
    cases o <;> simp [startCamera, hs]

theorem camera_single_session_witness :
    (activeStreams (runCam initialState
        [CamEvent.start CamOutcome.success,
          CamEvent.toggle CamOutcome.success])).length ≤ 1 ∧
    0 ∈ ((startCamera
        (runCam initialState [CamEvent.start CamOutcome.success])
        CamOutcome.success).1).stopped :=
  ⟨camera_single_session.1 _,
    camera_single_session.2 _ CamOutcome.success 0 (by decide)⟩

/-- Claim C5 (refuted by the cited file): `updatePosition` renders the
coordinates with six decimals and a comma-space separator, altitude with one
decimal and the unit or the literal N/A, and each optional field
independently; but the accuracy prefix in src/unnamed/part_000 is the
double-encoded two-character sequence, not the single plus-minus sign the
claim states — src/script.js has the intended single character. -/
theorem update_position_formats :
    (updatePosition exampleFix blankDisplay).coordinates =
      "37.422999, -122.084057" ∧
    (updatePosition exampleFix blankDisplay).altitude = "123.5 m" ∧
    (updatePosition exampleFix blankDisplay).accuracy = "Â±5.2 m" ∧
    "Â±5.2 m" ≠ "±5.2 m" ∧
    (updatePositionScriptJs exampleFix blankDisplay).accuracy = "±5.2 m" ∧
    (updatePosition exampleFixBare blankDisplay).altitude = "N/A" ∧
    (updatePosition exampleFixBare blankDisplay).accuracy = "N/A" ∧
    (updatePosition exampleFixBare blankDisplay).coordinates =
      "37.422999, -122.084057" ∧
    (updatePosition exampleFix blankDisplay).coordLoading = false := by
  refine ⟨?_, ?_, ?_, by decide, ?_, ?_, rfl, ?_, rfl⟩ <;>
    with_unfolding_all decide

/-- Claim C6: in the landscape layout the panel width is exactly
floor(0.30 × W) for every raster width W, and W = 1920 gives 576. -/
theorem landscape_panel_width :
    ∀ (w h : ℕ) (d : GeoDisplay),
      firstFillRectWidth (landscapeOverlay w h d) = some ((w * 3 / 10 : ℕ) : ℚ) ∧
      ((w * 3 / 10 : ℕ) : ℤ) = ⌊(3 / 10 : ℚ) * (w : ℚ)⌋ ∧
      firstFillRectWidth (landscapeOverlay 1920 h d) = some 576 := by
  intro w h d
  refine ⟨rfl, ?_, ?_⟩
  · have key := Rat.floor_intCast_div_natCast ((w * 3 : ℕ) : ℤ) 10
    have harg : (3 / 10 : ℚ) * (w : ℚ) = (((w * 3 : ℕ) : ℤ) : ℚ) / ((10 : ℕ) : ℚ) := by
      push_cast; ring
    rw [harg, key]
    omega
  · norm_num [landscapeOverlay, firstFillRectWidth, List.findSome?_cons]

/-- Claim C7: with the video dimensions and the four display strings
unchanged, two invocations of `capturePhoto` emit identical draw commands,
raster geometry and export settings, and their filenames are exactly the
fixed prefix plus each call's own timestamp. -/
theorem capture_deterministic :
    ∀ (w h : ℕ) (d : GeoDisplay) (t1 t2 : ℕ),
      (capturePhoto w h d t1).draws = (capturePhoto w h d t2).draws ∧
      (capturePhoto w h d t1).width = (capturePhoto w h d t2).width ∧
      (capturePhoto w h d t1).height = (capturePhoto w h d t2).height ∧
      (capturePhoto w h d t1).isLandscape = (capturePhoto w h d t2).isLandscape ∧
      (capturePhoto w h d t1).exportMime = (capturePhoto w h d t2).exportMime ∧
      (capturePhoto w h d t1).exportQuality = (capturePhoto w h d t2).exportQuality ∧
      (capturePhoto w h d t1).filename = "solvepao_" ++ Nat.repr t1 ++ ".jpg" ∧
      (capturePhoto w h d t2).filename = "solvepao_" ++ Nat.repr t2 ++ ".jpg" :=
  fun _ _ _ _ _ => ⟨rfl, rfl, rfl, rfl, rfl, rfl, rfl, rfl⟩

/-- Claim C8: when camera acquisition fails, `startCamera` shows the
permission prompt and rethrows the same error, and `init`, catching it,
leaves the prompt visible — no acquisition error is swallowed. -/
theorem camera_error_surfaced :
    ∀ (s : AppState) (e : String) (g : Bool) (hnd : ℕ),
      ((startCamera s (CamOutcome.failure e)).1).permissionVisible = true ∧
      (startCamera s (CamOutcome.failure e)).2 = Except.error e ∧
      (init s (CamOutcome.failure e) g hnd).permissionVisible = true := by
  intro s e g hnd
  cases hs : s.streamVar <;> simp [startCamera, init, hs]

/-- Claim C9: a location error sets the coordinate display to the
unavailable literal, drops the loading class, and leaves everything else —
in particular the watch subscription handle — exactly as it was. -/
theorem location_error_keeps_watch :
    ∀ (s : AppState) (e : String),
      (handleLocationError s e).display.coordinates = "Location unavailable" ∧
      (handleLocationError s e).display.coordLoading = false ∧
      (handleLocationError s e).watchId = s.watchId ∧
      (handleLocationError s e).display.altitude = s.display.altitude ∧
      (handleLocationError s e).display.accuracy = s.display.accuracy ∧
      (handleLocationError s e).display.datetime = s.display.datetime ∧
      (handleLocationError s e).streamVar = s.streamVar ∧
      (handleLocationError s e).facingMode = s.facingMode :=
  fun _ _ => ⟨rfl, rfl, rfl, rfl, rfl, rfl, rfl, rfl⟩

/-- Claim C10: `toggleCamera` flips the facing mode before the camera
restart and the flip survives a failed restart, the `getUserMedia` request —
including a later retry — uses the new facing mode, and two toggles from
either legal facing mode restore the original. -/
theorem toggle_flips_facing :
    (∀ (s : AppState) (o : CamOutcome),
      ((toggleCamera s o).1).facingMode = flipFacing s.facingMode ∧
      ((toggleCamera s o).1).lastRequest =
        some ⟨flipFacing s.facingMode, 1920, 1080⟩) ∧
    (∀ (s : AppState) (e : String) (o : CamOutcome),
      ((startCamera (toggleCamera s (CamOutcome.failure e)).1 o).1).lastRequest =
        some ⟨flipFacing s.facingMode, 1920, 1080⟩) ∧
    (∀ (s : AppState) (o1 o2 : CamOutcome),
      s.facingMode = "environment" ∨ s.facingMode = "user" →
      ((toggleCamera (toggleCamera s o1).1 o2).1).facingMode = s.facingMode) := by
  refine ⟨?_, ?_, ?_⟩
  · intro s o
    cases hs : s.streamVar <;> cases o <;>
      simp [toggleCamera, startCamera, hs]
  · intro s e o
    rcases hs : s.streamVar with _ | sid <;> cases o <;>
      simp [toggleCamera, startCamera, hs]
  · intro s o1 o2 h
    rw [toggleCamera_facingMode, toggleCamera_facingMode]
    rcases h with h | h <;> rw [h] <;> rfl

theorem toggle_flips_facing_witness :
    ((toggleCamera (toggleCamera initialState CamOutcome.success).1
        CamOutcome.success).1).facingMode = initialState.facingMode ∧
    ((toggleCamera initialState (CamOutcome.failure "denied")).1).facingMode =
      flipFacing initialState.facingMode :=
  ⟨toggle_flips_facing.2.2 initialState CamOutcome.success CamOutcome.success
      (Or.inl rfl),
    (toggle_flips_facing.1 initialState (CamOutcome.failure "denied")).1⟩

end GeoCam
